import Mathlib

/-! Verification development for the resize-observer polyfill sources:
the observer bookkeeping class ResizeObserverSPI, the two Map shims
(the array-backed one from es6-collections and the tag-backed one), and
the call-validation helpers. JavaScript code is shallowly embedded:
object identities are natural numbers, machine behavior such as the JS
ToNumber conversion and the int32 coercion is made explicit, and code
that can throw returns Except values. -/

namespace RO

/-- A JavaScript string, modelled as its list of characters. -/
abbrev JStr := List Char

/-- Fragment of the JS ToNumber conversion on strings, restricted to the
grammar this development exercises: a (possibly empty) string of decimal
digits denotes the corresponding number (the empty string converts to 0
in JS), and any string containing a character that is not a decimal digit
converts to NaN, modelled as none. No JS numeric literal may contain a
comma, so every string produced by pairToJStr below converts to NaN. -/
def jsToNumber (s : JStr) : Option Nat :=
  if s.all Char.isDigit then
    some (s.foldl (fun n c => n * 10 + (c.toNat - 48)) 0)
  else
    none

/-- The JS string conversion of a two-element array [k, v]:
Array.prototype.toString joins the string conversions of the elements
with a comma. kStr and vStr give the string conversions of the key and
value types. -/
def pairToJStr (kStr : K → JStr) (vStr : V → JStr) (e : K × V) : JStr :=
  kStr e.1 ++ [','] ++ vStr e.2

/-- Body of the hand-rolled for-loop of Shim._indexOfKey for the case in
which the loop bound converted to an actual number: scan entry i for a
key match (JS === on object keys is identity, modelled by BEq on the key
type) while i is below the bound; the fuel argument is bound - i. This
case is unreachable in every execution (see indexOfKey_eq_neg_one): the
string conversion of a two-element array always contains a comma, so its
ToNumber is NaN. On an index past the end of the array JS would evaluate
undefined[0] and throw; the model returns -1 on that dead branch. -/
def scanEntries [BEq K] (entries : List (K × V)) (key : K) :
    Nat → Nat → Int
  | 0, _ => -1
  | fuel + 1, i =>
    match entries[i]? with
    | some e => if e.1 == key then Int.ofNat i else scanEntries entries key fuel (i + 1)
    | none => -1

/-- Shim._indexOfKey from es6-collections.js. The source reads
const [length] = this._entries, which is ARRAY destructuring: length is
bound to the first entry of the array (a [key, value] pair), or to
undefined when the array is empty, not to the length property. The loop
condition i < length therefore compares i against
ToNumber(ToPrimitive(firstEntry)), i.e. ToNumber of the string "k,v"
(NaN), or against ToNumber(undefined) = NaN for the empty array; both
comparisons are false, so the loop body never runs. -/
def indexOfKey [BEq K] (kStr : K → JStr) (vStr : V → JStr)
    (entries : List (K × V)) (key : K) : Int :=
  match entries with
  | [] => -1
  | e :: _ =>
    match jsToNumber (pairToJStr kStr vStr e) with
    | none => -1
    | some bound => scanEntries entries key bound 0

/-- The array-backed Map shim of es6-collections.js; the state is the
private _entries array. -/
structure Shim (K V : Type) where
  entries : List (K × V)
  deriving DecidableEq

/-- The empty shim, as built by the Shim constructor. -/
def Shim.empty : Shim K V := ⟨[]⟩

/-- Replace the value stored at position i of an entries array, keeping
the key: models the statement entries[index][1] = value. -/
def setSnd (l : List (K × V)) (i : Nat) (v : V) : List (K × V) :=
  match l, i with
  | [], _ => []
  | e :: tl, 0 => (e.1, v) :: tl
  | e :: tl, n + 1 => e :: setSnd tl n v

/-- Shim.get: returns entries[index][1] when the key scan found an index,
undefined (none) otherwise. -/
def Shim.get [BEq K] (kStr : K → JStr) (vStr : V → JStr)
    (m : Shim K V) (key : K) : Option V :=
  let index := indexOfKey kStr vStr m.entries key
  if index = -1 then none
  else (m.entries[index.toNat]?).map (fun e => e.2)

/-- Shim.set: pushes a fresh [key, value] pair when the scan found no
index, otherwise overwrites the value in place. -/
def Shim.set [BEq K] (kStr : K → JStr) (vStr : V → JStr)
    (m : Shim K V) (key : K) (value : V) : Shim K V :=
  let index := indexOfKey kStr vStr m.entries key
  if index = -1 then ⟨m.entries ++ [(key, value)]⟩
  else ⟨setSnd m.entries index.toNat value⟩

/-- Shim.delete: splices out the entry at the found index and reports
whether one was removed. -/
def Shim.delete [BEq K] (kStr : K → JStr) (vStr : V → JStr)
    (m : Shim K V) (key : K) : Shim K V × Bool :=
  let index := indexOfKey kStr vStr m.entries key
  if index = -1 then (m, false)
  else (⟨m.entries.eraseIdx index.toNat⟩, true)

/-- Shim.has: whether the key scan found an index. -/
def Shim.has [BEq K] (kStr : K → JStr) (vStr : V → JStr)
    (m : Shim K V) (key : K) : Bool :=
  indexOfKey kStr vStr m.entries key != -1

/-- Shim.clear: sets the length of the entries array to zero. -/
def Shim.clear (_ : Shim K V) : Shim K V := ⟨[]⟩

/-- The size getter: length of the entries array. -/
def Shim.size (m : Shim K V) : Nat := m.entries.length

/-- Shim.forEach visits the entries array front to back; this gives the
visited (key, value) sequence. -/
def Shim.toPairs (m : Shim K V) : List (K × V) := m.entries

/-- The string conversion of a two-element array always contains a comma
and hence converts to NaN. -/
theorem jsToNumber_pairToJStr [BEq K] (kStr : K → JStr) (vStr : V → JStr)
    (e : K × V) : jsToNumber (pairToJStr kStr vStr e) = none := by
  have hcomma : (pairToJStr kStr vStr e).all Char.isDigit = false := by
    simp only [pairToJStr, List.all_append, List.all_cons, List.all_nil,
      Bool.and_true]
    have : Char.isDigit ',' = false := by decide
    simp [this]
  simp [jsToNumber, hcomma]

/-- The key scan of the array-backed shim never finds anything: the loop
bound is the ToNumber image of either undefined or a pair string, both
NaN. -/
theorem indexOfKey_eq_neg_one [BEq K] (kStr : K → JStr) (vStr : V → JStr)
    (entries : List (K × V)) (key : K) :
    indexOfKey kStr vStr entries key = -1 := by
  cases entries with
  | nil => rfl
  | cons e tl =>
    simp [indexOfKey, jsToNumber_pairToJStr]

/-- Shim.has is constantly false. -/
theorem Shim.has_eq_false [BEq K] (kStr : K → JStr) (vStr : V → JStr)
    (m : Shim K V) (key : K) : Shim.has kStr vStr m key = false := by
  simp [Shim.has, indexOfKey_eq_neg_one]

/-- Shim.get is constantly undefined. -/
theorem Shim.get_eq_none [BEq K] (kStr : K → JStr) (vStr : V → JStr)
    (m : Shim K V) (key : K) : Shim.get kStr vStr m key = none := by
  simp [Shim.get, indexOfKey_eq_neg_one]

/-- Shim.set always pushes a fresh entry, even for a key already
present. -/
theorem Shim.set_eq_push [BEq K] (kStr : K → JStr) (vStr : V → JStr)
    (m : Shim K V) (key : K) (value : V) :
    Shim.set kStr vStr m key value = ⟨m.entries ++ [(key, value)]⟩ := by
  simp [Shim.set, indexOfKey_eq_neg_one]

/-- Shim.delete never removes anything. -/
theorem Shim.delete_eq_noop [BEq K] (kStr : K → JStr) (vStr : V → JStr)
    (m : Shim K V) (key : K) : Shim.delete kStr vStr m key = (m, false) := by
  simp [Shim.delete, indexOfKey_eq_neg_one]

/-- Interface of the Map-like store consumed by ResizeObserverSPI. The
source binds it as MapShim, which is the native Map constructor when the
host defines one and the array-backed Shim above otherwise; both are
packaged as instances of this record so the observer code can be stated
once and evaluated against either store. -/
structure MapOps (K V σ : Type) where
  empty : σ
  hasK : σ → K → Bool
  getK : σ → K → Option V
  setK : σ → K → V → σ
  deleteK : σ → K → σ × Bool
  clearK : σ → σ
  sizeK : σ → Nat
  toPairsK : σ → List (K × V)

/-- Replace the value of the first entry whose key equals k, or append a
new entry: the native Map set semantics on an insertion-ordered entry
list. -/
def assocSet [DecidableEq K] (l : List (K × V)) (k : K) (v : V) :
    List (K × V) :=
  match l with
  | [] => [(k, v)]
  | e :: tl => if e.1 = k then (e.1, v) :: tl else e :: assocSet tl k v

/-- Remove the first entry whose key equals k: the native Map delete
semantics on an insertion-ordered entry list. -/
def assocErase [DecidableEq K] (l : List (K × V)) (k : K) :
    List (K × V) :=
  match l with
  | [] => []
  | e :: tl => if e.1 = k then tl else e :: assocErase tl k

/-- The native ES2015 Map semantics (the branch of MapShim taken when the
host defines Map): object-identity keys, insertion-order iteration,
in-place update on set of an existing key. -/
def nativeMapOps (K V : Type) [DecidableEq K] :
    MapOps K V (List (K × V)) where
  empty := []
  hasK m k := m.any (fun e => e.1 == k)
  getK m k := (m.find? (fun e => e.1 == k)).map (fun e => e.2)
  setK := assocSet
  deleteK m k := (assocErase m k, m.any (fun e => e.1 == k))
  clearK _ := []
  sizeK := List.length
  toPairsK := id

/-- The array-backed Shim of es6-collections.js packaged as a MapOps
instance (the branch of MapShim taken when the host has no native
Map). -/
def shimMapOps (K V : Type) [BEq K] (kStr : K → JStr) (vStr : V → JStr) :
    MapOps K V (Shim K V) where
  empty := Shim.empty
  hasK := Shim.has kStr vStr
  getK := Shim.get kStr vStr
  setK := Shim.set kStr vStr
  deleteK := Shim.delete kStr vStr
  clearK := Shim.clear
  sizeK := Shim.size
  toPairsK := Shim.toPairs

/-- Modelled from the spec: a content Box is an immutable width/height
pair compared by exact field equality. The ContentRect source file is not
part of the embedded tree. -/
structure Box where
  width : Int
  height : Int
  deriving DecidableEq

/-- Modelled from the spec: a ResizeObservation holds its target and the
last broadcast Box; the initial value of the latter is a sentinel
distinct from every real Box, including the zero Box, modelled as none.
The ResizeObservation source file is not part of the embedded tree. -/
structure Observation (K : Type) where
  target : K
  broadcastedBox : Option Box
  deriving DecidableEq

/-- Modelled from the spec: isActive computes the current Box of the
target (the layout argument plays the role of the rendered layout the
host would be queried for) and returns true iff it differs from the last
broadcast Box; it mutates nothing. -/
def Observation.isActive (layout : K → Box) (o : Observation K) : Bool :=
  if o.broadcastedBox = some (layout o.target) then false else true

/-- Modelled from the spec: broadcastRect computes the current Box,
stores it as the last broadcast Box and returns it. -/
def Observation.broadcastRect (layout : K → Box) (o : Observation K) :
    Box × Observation K :=
  (layout o.target, { o with broadcastedBox := some (layout o.target) })

/-- Modelled from the spec: the immutable ResizeObserverEntry passed to
the user callback, pairing the target with its freshly broadcast content
Box. -/
structure Entry (K : Type) where
  target : K
  contentRect : Box
  deriving DecidableEq

/-- A synchronously thrown JS error. The embedded sources only throw
TypeError, via assertType from utils/assert. -/
inductive JsErr where
  | typeError (msg : String)
  deriving DecidableEq

/-- The host capabilities consulted by validateMethodCall: whether the
Element interface exists (the hasElementInterface constant of
ResizeObserverSPI.js) and the result of the check
target instanceof getWindowOf(target).Element as a predicate on
targets. -/
structure HostEnv (K : Type) where
  hasElementInterface : Bool
  isElement : K → Bool

/-- validateMethodCall from ResizeObserverSPI.js: throws a TypeError when
invoked with zero arguments (assertType on arguments.length, which is
falsy exactly when it is 0), returns false (meaning the calling method
does nothing) when the host lacks the Element interface, throws a
TypeError when the target is not an Element of its window, and returns
true otherwise. With zero arguments the JS target is undefined, but the
argument-count assert throws before the target is inspected, so the
model may take an arbitrary target value. -/
def validateMethodCall (env : HostEnv K) (argc : Nat) (target : K) :
    Except JsErr Bool :=
  if argc = 0 then
    .error (.typeError "1 argument required, but only 0 present.")
  else if env.hasElementInterface = false then
    .ok false
  else if env.isElement target = false then
    .error (.typeError "parameter 1 is not of type \"Element\".")
  else
    .ok true

/-- State of one ResizeObserverSPI instance: the activeObservations
array and the observations map (holding ResizeObservation objects that
are shared, mutable JS objects; they live in a small heap keyed by an
allocation id, and both the map and the active array refer to them by
id), plus the controller bookkeeping visible from this instance. The
ResizeObserverController source is not part of the embedded tree and is
modelled from the spec: addObserver registers the instance (registered
becomes true), removeObserver deregisters it, and refresh is the forced
update requested at the end of observe, counted here. The constructor
asserts that the callback is a function, which is always true of the
Lean functions standing in for callbacks. -/
structure SPIState (K σ : Type) where
  nextId : Nat
  heap : List (Nat × Observation K)
  activeObservations : List Nat
  observations : σ
  registered : Bool
  refreshCount : Nat
  deriving DecidableEq

/-- A freshly constructed ResizeObserverSPI instance. -/
def initSPI (ops : MapOps K Nat σ) : SPIState K σ :=
  ⟨0, [], [], ops.empty, false, 0⟩

/-- Dereference a ResizeObservation id in the heap. Every id stored in
the map or the active array is allocated, so the default is never
reached in an execution of the embedded code. -/
def heapGet [Inhabited K] (s : SPIState K σ) (oid : Nat) : Observation K :=
  match s.heap.lookup oid with
  | some o => o
  | none => ⟨default, none⟩

/-- ResizeObserverSPI.observe: validate the call (propagating a thrown
TypeError, or doing nothing when validation returns false); do nothing
when the observations map reports the target as already observed;
otherwise allocate a fresh ResizeObservation for the target, store it in
the map under the target, register the instance with the controller
(addObserver) and force a refresh. -/
def observe (ops : MapOps K Nat σ) (env : HostEnv K) (argc : Nat)
    (target : K) (s : SPIState K σ) : Except JsErr (SPIState K σ) :=
  match validateMethodCall env argc target with
  | .error e => .error e
  | .ok false => .ok s
  | .ok true =>
    if ops.hasK s.observations target then .ok s
    else
      .ok { s with
        nextId := s.nextId + 1
        heap := s.heap ++ [(s.nextId, ⟨target, none⟩)]
        observations := ops.setK s.observations target s.nextId
        registered := true
        refreshCount := s.refreshCount + 1 }

/-- ResizeObserverSPI.unobserve: validate the call exactly as observe
does; do nothing when the observations map reports the target as not
observed; otherwise delete the entry from the map and, when the map size
thereby reaches zero, deregister the instance from the controller
(removeObserver). -/
def unobserve (ops : MapOps K Nat σ) (env : HostEnv K) (argc : Nat)
    (target : K) (s : SPIState K σ) : Except JsErr (SPIState K σ) :=
  match validateMethodCall env argc target with
  | .error e => .error e
  | .ok false => .ok s
  | .ok true =>
    if ops.hasK s.observations target = false then .ok s
    else
      let m := (ops.deleteK s.observations target).1
      .ok { s with
        observations := m
        registered := if ops.sizeK m = 0 then false else s.registered }

/-- ResizeObserverSPI.clearActive: splice the whole activeObservations
array away. -/
def clearActive (s : SPIState K σ) : SPIState K σ :=
  { s with activeObservations := [] }

/-- ResizeObserverSPI.hasActive: whether the activeObservations array is
nonempty. -/
def hasActive (s : SPIState K σ) : Bool :=
  decide (0 < s.activeObservations.length)

/-- ResizeObserverSPI.disconnect: clearActive, then clear the
observations map, then deregister from the controller. -/
def disconnect (ops : MapOps K Nat σ) (s : SPIState K σ) : SPIState K σ :=
  { s with
    activeObservations := []
    observations := ops.clearK s.observations
    registered := false }

/-- ResizeObserverSPI.gatherActive: clearActive, then iterate the
observations map in its forEach order appending every observation whose
isActive is true. -/
def gatherActive [Inhabited K] (ops : MapOps K Nat σ) (layout : K → Box)
    (s : SPIState K σ) : SPIState K σ :=
  { s with
    activeObservations :=
      (ops.toPairsK s.observations).filterMap (fun e =>
        if (heapGet s e.2).isActive layout then some e.2 else none) }

/-- A user callback: it receives the entries array and may mutate the
instance state (nested observe, unobserve, disconnect or layout changes)
and may throw. The returned state is the instance state after the
callback body ran; a some error means the callback threw after making
those mutations, and a thrown JS error does not roll any mutation
back. -/
abbrev Callback (K σ : Type) :=
  List (Entry K) → SPIState K σ → SPIState K σ × Option JsErr

/-- Result of broadcastActive: the instance state afterwards, the error
that propagated out of the user callback if it threw, and the list of
callback invocations that happened, each recorded as the entries array
it was passed. -/
structure BroadcastOut (K σ : Type) where
  state : SPIState K σ
  err : Option JsErr
  calls : List (List (Entry K))
  deriving DecidableEq

/-- The mutation performed while broadcastActive builds the entries
array: mapping over activeObservations calls broadcastRect on every
staged observation, which stores the freshly computed Box into the
shared ResizeObservation object; on the heap this updates exactly the
observations whose id is staged. -/
def bWriteback [Inhabited K] (layout : K → Box) (s : SPIState K σ) :
    SPIState K σ :=
  { s with
    heap := s.heap.map (fun e =>
      if e.1 ∈ s.activeObservations then
        (e.1, (Observation.broadcastRect layout e.2).2)
      else e) }

/-- The entries array broadcastActive builds before invoking the user
callback: one fresh ResizeObserverEntry per staged observation, pairing
the target of the observation with the Box returned by its
broadcastRect, in the order of the activeObservations array. -/
def bEntries [Inhabited K] (layout : K → Box) (s : SPIState K σ) :
    List (Entry K) :=
  s.activeObservations.map (fun oid =>
    Entry.mk (heapGet s oid).target
      (Observation.broadcastRect layout (heapGet s oid)).1)

/-- ResizeObserverSPI.broadcastActive: do nothing without active
observations; otherwise build the entries array (bEntries, with
bWriteback as the accompanying observation mutation), invoke the user
callback exactly once with that array, and then clearActive. The source
wraps the callback invocation in no try/finally, so a thrown callback
error propagates and the clearActive call after the invocation is
skipped, while every mutation made before the throw persists. -/
def broadcastActive [Inhabited K] (layout : K → Box) (cb : Callback K σ)
    (s : SPIState K σ) : BroadcastOut K σ :=
  if hasActive s = false then ⟨s, none, []⟩
  else
    match cb (bEntries layout s) (bWriteback layout s) with
    | (s2, some e) => ⟨s2, some e, [bEntries layout s]⟩
    | (s2, none) => ⟨clearActive s2, none, [bEntries layout s]⟩

/-- Identity of a JS object used as a map key by the tag-backed shim;
extensibility and the tag properties written onto key objects live in
ObjHeap. The polyfill only uses object (Element) keys, and the claims
about this shim only concern object keys, so the primitive-key branch of
the source (which uses the string conversion of the key as the storage
key after asserting it does not collide with the tag namespace) is not
embedded. -/
abbrev ObjId := Nat

/-- The part of the JS object heap the tag-backed shim touches: whether
each object is extensible, and the tag properties previously defined on
objects. A property written by the map generation g is recorded as
(objId, g, id); defineProperty uses configurable true, so the property
can later be deleted by Shim.delete. -/
structure ObjHeap where
  extensible : ObjId → Bool
  props : List (ObjId × Nat × Int)

/-- The JS int32 coercion x | 0 applied to the id counter. -/
def toInt32 (n : Nat) : Int :=
  if n % 2 ^ 32 < 2 ^ 31 then ((n % 2 ^ 32 : Nat) : Int)
  else ((n % 2 ^ 32 : Nat) : Int) - 2 ^ 32

/-- The value of the tag property of generation g on object k, when
defined. -/
def propLookup (h : ObjHeap) (k : ObjId) (g : Nat) : Option Int :=
  (h.props.find? (fun e => e.1 == k && e.2.1 == g)).map (fun e => e.2.2)

/-- The tag-backed Map shim of the unnamed shim source. generateTag is
random in the source; it is modelled by a generation counter, under the
uuid uniqueness the source itself relies on (distinct generations yield
distinct base tags). A storage key, the string concatenation of the base
tag and the decimal id, is modelled as the pair (generation, id); these
strings start with an underscore, so the for..in iteration of the
storage object visits them in property insertion order, modelled by
keeping the entry list in insertion order. -/
structure TagShim (V : Type) where
  entries : List ((Nat × Int) × ObjId × V)
  tag : Nat
  size : Nat
  idCounter : Nat
  nextGen : Nat

/-- A freshly constructed tag-backed shim; the constructor body is a
call to clear. -/
def TagShim.fresh : TagShim V := ⟨[], 0, 0, 0, 1⟩

/-- Shim.getTag_ of the tag-backed shim, for an object key: the base tag
concatenated with the id stored on the key, provided the key is
extensible and carries the property named by the base tag; undefined
(none) otherwise. -/
def TagShim.getTag (h : ObjHeap) (m : TagShim V) (k : ObjId) :
    Option (Nat × Int) :=
  if h.extensible k then
    match propLookup h k m.tag with
    | some i => some (m.tag, i)
    | none => none
  else none

/-- Shim.exists_ of the tag-backed shim: a defined (hence truthy,
nonempty) tag that is a key of the storage object. -/
def TagShim.existsTag (m : TagShim V) (t : Option (Nat × Int)) : Bool :=
  match t with
  | none => false
  | some tg => (m.entries.find? (fun e => e.1 == tg)).isSome

/-- Shim.insert_ of the tag-backed shim, for an object key: assert the
key is extensible (throwing a TypeError otherwise), build the new tag
from the int32-coerced id counter, define the tag property on the key
object, store the [key, value] tuple under the new tag, and bump size
and id counter. -/
def TagShim.insert (h : ObjHeap) (m : TagShim V) (k : ObjId) (v : V) :
    Except JsErr (ObjHeap × TagShim V) :=
  if h.extensible k = false then
    .error (.typeError "Cannot use inextensible object as keys with MapShim!")
  else
    let idv := toInt32 m.idCounter
    .ok
      ({ h with
          props := (k, m.tag, idv) ::
            h.props.filter (fun e => !(e.1 == k && e.2.1 == m.tag)) },
        { m with
          entries := m.entries ++ [((m.tag, idv), k, v)]
          size := m.size + 1
          idCounter := m.idCounter + 1 })

/-- Shim.get of the tag-backed shim. -/
def TagShim.get (h : ObjHeap) (m : TagShim V) (k : ObjId) : Option V :=
  match TagShim.getTag h m k with
  | some tg =>
    if (m.entries.find? (fun e => e.1 == tg)).isSome then
      (m.entries.find? (fun e => e.1 == tg)).map (fun e => e.2.2)
    else none
  | none => none

/-- Shim.set of the tag-backed shim: update the stored tuple in place
when the tag of the key is a key of the storage object, insert
otherwise. -/
def TagShim.set (h : ObjHeap) (m : TagShim V) (k : ObjId) (v : V) :
    Except JsErr (ObjHeap × TagShim V) :=
  match TagShim.getTag h m k with
  | some tg =>
    if (m.entries.find? (fun e => e.1 == tg)).isSome then
      .ok (h, { m with
        entries := m.entries.map (fun e =>
          if e.1 == tg then (e.1, e.2.1, v) else e) })
    else TagShim.insert h m k v
  | none => TagShim.insert h m k v

/-- Shim.delete of the tag-backed shim: when present, remove the storage
entry, delete the tag property from the key object, and decrement
size. -/
def TagShim.delete (h : ObjHeap) (m : TagShim V) (k : ObjId) :
    ObjHeap × TagShim V × Bool :=
  match TagShim.getTag h m k with
  | some tg =>
    if (m.entries.find? (fun e => e.1 == tg)).isSome then
      ({ h with
          props := h.props.filter (fun e => !(e.1 == k && e.2.1 == m.tag)) },
        { m with
          entries := m.entries.filter (fun e => !(e.1 == tg))
          size := m.size - 1 },
        true)
    else (h, m, false)
  | none => (h, m, false)

/-- Shim.has of the tag-backed shim. -/
def TagShim.has (h : ObjHeap) (m : TagShim V) (k : ObjId) : Bool :=
  TagShim.existsTag m (TagShim.getTag h m k)

/-- Shim.clear of the tag-backed shim: fresh storage object, zero size
and id counter, and a newly generated base tag; the tag properties left
on previously used key objects are not removed. -/
def TagShim.clear (m : TagShim V) : TagShim V :=
  ⟨[], m.nextGen, 0, 0, m.nextGen + 1⟩

/-- The string conversion of a JS object: every Element and every
ResizeObservation converts to an [object ...] string, which is what the
loop bound of the array-backed shim would be compared against. Any
function would do here, since the pair string always contains a comma;
this one is the conversion of a plain object. -/
def objStr (_ : Nat) : JStr := "[object Object]".data

/-- ResizeObserverSPI state over the array-backed shim: the MapShim
branch taken by a host without a native Map. Keys are Element
identities, values are ResizeObservation ids. -/
def natShimOps : MapOps Nat Nat (Shim Nat Nat) :=
  shimMapOps Nat Nat objStr objStr

/-- ResizeObserverSPI state over the native Map semantics: the MapShim
branch taken by a host that defines Map. -/
def natMapOps : MapOps Nat Nat (List (Nat × Nat)) :=
  nativeMapOps Nat Nat

/-- A host in which the Element interface exists and every target passes
the instanceof check. -/
def envAll : HostEnv Nat := ⟨true, fun _ => true⟩

/-- A user callback that mutates nothing and returns normally. -/
def idCb : Callback K σ := fun _ st => (st, none)

/-- A user callback that immediately throws. -/
def throwCb : Callback K σ := fun _ st => (st, some (.typeError "boom"))

/-- A rendered layout giving every target the same 30 by 40 content
box. -/
def constLayout : Nat → Box := fun _ => ⟨30, 40⟩

/-- An instance state with one observed target (5) whose observation is
staged in activeObservations, as left by a gatherActive that found it
active. -/
def sOneActive : SPIState Nat (List (Nat × Nat)) :=
  ⟨1, [(0, ⟨5, none⟩)], [0], [(5, 0)], true, 0⟩

/-- An instance state already observing target 7, with nothing staged. -/
def sWith7 : SPIState Nat (List (Nat × Nat)) :=
  ⟨1, [(0, ⟨7, none⟩)], [], [(7, 0)], true, 1⟩

/-- An object heap in which no object is extensible (for example after
Object.freeze) and no tag property has been written. -/
def frozenHeap : ObjHeap := ⟨fun _ => false, []⟩

/-- An object heap in which every object is extensible and no tag
property has been written yet. -/
def extensibleHeap : ObjHeap := ⟨fun _ => true, []⟩

/-- A user callback that performs a nested observe of target D on the
instance from inside the broadcast, then returns normally; the thrown
branch never fires under envAll. -/
def nestedObserveCb (D : Nat) : Callback Nat (List (Nat × Nat)) :=
  fun _ st =>
    match observe natMapOps envAll 1 D st with
    | .ok st2 => (st2, none)
    | .error e => (st, some e)

/-- A successful observe of a new valid target: the fresh observation is
allocated, stored under the target, the instance registers with the
controller and forces a refresh. -/
theorem observe_new (ops : MapOps K Nat σ) (env : HostEnv K) (t : K)
    (s : SPIState K σ) (h1 : env.hasElementInterface = true)
    (h2 : env.isElement t = true)
    (h3 : ops.hasK s.observations t = false) :
    observe ops env 1 t s = .ok { s with
      nextId := s.nextId + 1
      heap := s.heap ++ [(s.nextId, ⟨t, none⟩)]
      observations := ops.setK s.observations t s.nextId
      registered := true
      refreshCount := s.refreshCount + 1 } := by
  simp [observe, validateMethodCall, h1, h2, h3]

/-- The sequence of callback invocations made by broadcastActive is
determined by the state before the call: none when nothing is staged,
exactly one invocation with the snapshot entries array otherwise,
whatever the callback does. -/
theorem broadcastActive_calls [Inhabited K] (layout : K → Box)
    (cb : Callback K σ) (s : SPIState K σ) :
    (broadcastActive layout cb s).calls =
      if hasActive s = false then [] else [bEntries layout s] := by
  by_cases h : hasActive s = false
  · simp [broadcastActive, h]
  · simp only [broadcastActive, if_neg h]
    rcases hq : cb (bEntries layout s) (bWriteback layout s) with ⟨st2, e2⟩
    cases e2 <;> simp [h]

/-- broadcastActive with a callback that returns normally: the callback
runs on the written-back state with the snapshot entries, and afterwards
the activeObservations of the state the callback produced are
cleared. -/
theorem broadcastActive_ok [Inhabited K] (layout : K → Box)
    (cb : Callback K σ) (s : SPIState K σ) (hA : hasActive s = true)
    (hcb : ∀ es st, (cb es st).2 = none) :
    broadcastActive layout cb s =
      ⟨clearActive (cb (bEntries layout s) (bWriteback layout s)).1, none,
        [bEntries layout s]⟩ := by
  have hA2 : ¬ (hasActive s = false) := by simp [hA]
  simp only [broadcastActive, if_neg hA2]
  rcases hq : cb (bEntries layout s) (bWriteback layout s) with ⟨st2, e2⟩
  have he : e2 = none := hcb (bEntries layout s) (bWriteback layout s) ▸ hq ▸ rfl
  subst he
  simp [hq]

/-- Claim C2, evaluated at a failing input. The array-backed shim does
not provide map semantics: after set(k, v) on the empty shim, has(k) is
false and get(k) is undefined rather than v, a second set of the same
key grows the size to 2 instead of updating in place, and delete(k)
returns false and removes nothing. The cause is that _indexOfKey reads
const [length] = this._entries, an array destructuring that binds the
first [key, value] entry rather than the length property, so the scan
loop condition compares the index against NaN and the scan always
answers -1. -/
theorem c2_shim_not_a_map :
    Shim.has objStr objStr (Shim.set objStr objStr Shim.empty 5 77) 5 = false ∧
    Shim.get objStr objStr (Shim.set objStr objStr Shim.empty 5 77) 5 = none ∧
    Shim.size (Shim.set objStr objStr
      (Shim.set objStr objStr Shim.empty 5 77) 5 88) = 2 ∧
    Shim.delete objStr objStr (Shim.set objStr objStr Shim.empty 5 77) 5 =
      (Shim.set objStr objStr Shim.empty 5 77, false) := by
  refine ⟨Shim.has_eq_false .., Shim.get_eq_none .., ?_, Shim.delete_eq_noop ..⟩
  rw [Shim.set_eq_push, Shim.set_eq_push]
  rfl

/-- Claim C1, evaluated at a failing input. On a host without a native
Map (so MapShim is the array-backed Shim), observe(7) twice from a fresh
instance stores two observations for the same target: the observation
set has size 2 with two entries keyed 7, and a subsequent gatherActive
followed by broadcastActive delivers one callback invocation whose
entries array contains the same target twice, so duplicate entries are
broadcast, contrary to the claimed idempotence. -/
theorem c1_shim_observe_twice_duplicates :
    ∃ s2 : SPIState Nat (Shim Nat Nat),
      (observe natShimOps envAll 1 7 (initSPI natShimOps) >>=
        observe natShimOps envAll 1 7) = .ok s2 ∧
      natShimOps.sizeK s2.observations = 2 ∧
      natShimOps.toPairsK s2.observations = [(7, 0), (7, 1)] ∧
      (broadcastActive constLayout idCb
          (gatherActive natShimOps constLayout s2)).calls =
        [[⟨7, ⟨30, 40⟩⟩, ⟨7, ⟨30, 40⟩⟩]] := by
  refine ⟨_, rfl, rfl, rfl, rfl⟩

/-- Claim C6, evaluated at a failing input. On a host without a native
Map, after observe(7) from a fresh instance the target is stored in the
observation map, yet unobserve(7) is a complete no-op: the shim has
query answers false for every key, so the early return fires, the
observation stays stored and the instance stays registered with the
controller; the deregistration branch is unreachable. -/
theorem c6_shim_unobserve_never_removes :
    ∃ s1 : SPIState Nat (Shim Nat Nat),
      observe natShimOps envAll 1 7 (initSPI natShimOps) = .ok s1 ∧
      natShimOps.toPairsK s1.observations = [(7, 0)] ∧
      s1.registered = true ∧
      unobserve natShimOps envAll 1 7 s1 = .ok s1 := by
  refine ⟨_, rfl, rfl, rfl, rfl⟩

/-- Claim C9, evaluated at a distinguishing input. The two shims are not
observationally equivalent: running the two-operation sequence
set(k, v); has(k) on a fresh store with an extensible object key makes
the tag-backed shim answer true while the array-backed shim answers
false (its key scan is broken, see c2_shim_not_a_map). -/
theorem c9_shims_disagree :
    (match TagShim.set extensibleHeap (TagShim.fresh (V := Nat)) 0 42 with
      | .ok hm => TagShim.has hm.1 hm.2 0
      | .error _ => false) = true ∧
    Shim.has objStr objStr (Shim.set objStr objStr Shim.empty 0 42) 0 = false := by
  exact ⟨rfl, Shim.has_eq_false ..⟩

/-- Claim C10: the tag-backed shim refuses inextensible object keys. For
every heap in which the key object is not extensible, and every state of
the shim, set(key, value) falls through to insert_ (getTag_ answers
undefined for an inextensible key, so the update-in-place branch cannot
fire) and insert_ throws the TypeError of its extensibility assert, so
no such object can be stored. -/
theorem c10_inextensible_key_throws (V : Type) (h : ObjHeap)
    (m : TagShim V) (k : ObjId) (v : V)
    (hk : h.extensible k = false) :
    TagShim.set h m k v =
      .error (.typeError "Cannot use inextensible object as keys with MapShim!") := by
  simp [TagShim.set, TagShim.getTag, TagShim.insert, hk]

/-- Witness for c10_inextensible_key_throws at a frozen key object. -/
theorem c10_witness :
    frozenHeap.extensible 0 = false ∧
    TagShim.set frozenHeap (TagShim.fresh (V := Nat)) 0 5 =
      .error (.typeError "Cannot use inextensible object as keys with MapShim!") :=
  ⟨rfl, c10_inextensible_key_throws Nat frozenHeap TagShim.fresh 0 5 rfl⟩

/-- Claim C3 counterexample: a broadcastActive in which the user
callback throws leaves activeObservations nonempty, because the
clearActive call placed after the callback invocation is skipped when
the thrown error propagates; the claim asserts it would be empty. -/
theorem c3_counterexample :
    ¬ ((broadcastActive constLayout throwCb sOneActive).state.activeObservations
        = []) := by
  decide

/-- Claim C3 as amended: when the user callback throws during
broadcastActive, the clearing of activeObservations IS skipped. The
error propagates out of broadcastActive and the staged observations are
still there afterwards, exactly as before the call; they are discarded
only by a later gatherActive, clearActive or disconnect. -/
theorem c3_fault_skips_clear [Inhabited K] (layout : K → Box)
    (s : SPIState K σ) (h : s.activeObservations ≠ []) :
    (broadcastActive layout throwCb s).err = some (.typeError "boom") ∧
    (broadcastActive layout throwCb s).state.activeObservations =
      s.activeObservations := by
  have hA : ¬ (hasActive s = false) := by
    simp [hasActive, List.length_pos, h]
  simp [broadcastActive, if_neg hA, throwCb, bWriteback]

/-- Witness for c3_fault_skips_clear at a concrete staged state. -/
theorem c3_witness :
    sOneActive.activeObservations ≠ [] ∧
    ((broadcastActive constLayout throwCb sOneActive).err =
        some (.typeError "boom") ∧
      (broadcastActive constLayout throwCb sOneActive).state.activeObservations =
        sOneActive.activeObservations) :=
  ⟨by decide, c3_fault_skips_clear constLayout sOneActive (by decide)⟩

/-- Claim C7: disconnect empties activeObservations, clears the
observation map (destroying the observations) and deregisters the
instance from the controller, and doing it twice is the same as doing it
once. This holds over the native Map semantics and over the array-backed
shim alike, since both clear to the canonical empty store. -/
theorem c7_disconnect_idempotent :
    ∀ (s : SPIState Nat (List (Nat × Nat))) (t : SPIState Nat (Shim Nat Nat)),
      (disconnect natMapOps s).activeObservations = [] ∧
      natMapOps.toPairsK (disconnect natMapOps s).observations = [] ∧
      (disconnect natMapOps s).registered = false ∧
      disconnect natMapOps (disconnect natMapOps s) = disconnect natMapOps s ∧
      (disconnect natShimOps t).activeObservations = [] ∧
      natShimOps.toPairsK (disconnect natShimOps t).observations = [] ∧
      (disconnect natShimOps t).registered = false ∧
      disconnect natShimOps (disconnect natShimOps t) = disconnect natShimOps t :=
  fun _ _ => ⟨rfl, rfl, rfl, rfl, rfl, rfl, rfl, rfl⟩

/-- Claim C8: the validation behavior of observe and unobserve. With
zero arguments both throw the argument-count TypeError whatever the
host; with a target that fails the instanceof check on a host that has
the Element interface both throw the type TypeError; on a host without
the Element interface both return silently leaving the state untouched;
and a duplicate observe or an unobserve of an absent target is a silent
no-op, not a fault (stated over the native Map branch of MapShim). -/
theorem c8_validation_faults (env : HostEnv Nat) :
    (∀ (t : Nat) (s : SPIState Nat (List (Nat × Nat))),
      observe natMapOps env 0 t s =
        .error (.typeError "1 argument required, but only 0 present.") ∧
      unobserve natMapOps env 0 t s =
        .error (.typeError "1 argument required, but only 0 present.")) ∧
    (∀ (argc t : Nat) (s : SPIState Nat (List (Nat × Nat))),
      argc ≠ 0 → env.hasElementInterface = true → env.isElement t = false →
      observe natMapOps env argc t s =
        .error (.typeError "parameter 1 is not of type \"Element\".") ∧
      unobserve natMapOps env argc t s =
        .error (.typeError "parameter 1 is not of type \"Element\".")) ∧
    (∀ (argc t : Nat) (s : SPIState Nat (List (Nat × Nat))),
      argc ≠ 0 → env.hasElementInterface = false →
      observe natMapOps env argc t s = .ok s ∧
      unobserve natMapOps env argc t s = .ok s) ∧
    (∀ (t : Nat) (s : SPIState Nat (List (Nat × Nat))),
      env.hasElementInterface = true → env.isElement t = true →
      natMapOps.hasK s.observations t = true →
      observe natMapOps env 1 t s = .ok s) ∧
    (∀ (t : Nat) (s : SPIState Nat (List (Nat × Nat))),
      env.hasElementInterface = true → env.isElement t = true →
      natMapOps.hasK s.observations t = false →
      unobserve natMapOps env 1 t s = .ok s) := by
  refine ⟨fun t s => ⟨?_, ?_⟩, fun argc t s h0 h1 h2 => ⟨?_, ?_⟩,
    fun argc t s h0 h1 => ⟨?_, ?_⟩, fun t s h1 h2 h3 => ?_,
    fun t s h1 h2 h3 => ?_⟩ <;>
  simp [observe, unobserve, validateMethodCall, *]

/-- Witness for c8_validation_faults, discharging every hypothesis at
concrete hosts, targets and states. -/
theorem c8_witness :
    (observe natMapOps envAll 0 7 (initSPI natMapOps) =
      .error (.typeError "1 argument required, but only 0 present.")) ∧
    (observe natMapOps ⟨true, fun _ => false⟩ 1 7 (initSPI natMapOps) =
      .error (.typeError "parameter 1 is not of type \"Element\".")) ∧
    (observe natMapOps ⟨false, fun _ => true⟩ 1 7 (initSPI natMapOps) =
      .ok (initSPI natMapOps)) ∧
    (unobserve natMapOps ⟨false, fun _ => true⟩ 1 7 (initSPI natMapOps) =
      .ok (initSPI natMapOps)) ∧
    (natMapOps.hasK sWith7.observations 7 = true ∧
      observe natMapOps envAll 1 7 sWith7 = .ok sWith7) ∧
    (natMapOps.hasK (initSPI natMapOps).observations 7 = false ∧
      unobserve natMapOps envAll 1 7 (initSPI natMapOps) =
        .ok (initSPI natMapOps)) := by
  refine ⟨((c8_validation_faults envAll).1 7 (initSPI natMapOps)).1,
    (((c8_validation_faults ⟨true, fun _ => false⟩).2.1) 1 7
      (initSPI natMapOps) (by decide) rfl rfl).1,
    (((c8_validation_faults ⟨false, fun _ => true⟩).2.2.1) 1 7
      (initSPI natMapOps) (by decide) rfl).1,
    (((c8_validation_faults ⟨false, fun _ => true⟩).2.2.1) 1 7
      (initSPI natMapOps) (by decide) rfl).2,
    ⟨rfl, (c8_validation_faults envAll).2.2.2.1 7 sWith7 rfl rfl rfl⟩,
    ⟨rfl, (c8_validation_faults envAll).2.2.2.2 7 (initSPI natMapOps) rfl rfl rfl⟩⟩

/-- Claim C4: observing three distinct valid targets A, B, C in that
order on a fresh instance, with every observation active in the cycle
(fresh observations always are, since the sentinel differs from every
Box), gatherActive followed by broadcastActive invokes the user callback
exactly once, with the entries ordered A, B, C, and afterwards
activeObservations is empty, for every callback that returns
normally. -/
theorem c4_gather_broadcast_order (A B C : Nat) (layout : Nat → Box)
    (cb : Callback Nat (List (Nat × Nat)))
    (hAB : A ≠ B) (hAC : A ≠ C) (hBC : B ≠ C)
    (hcb : ∀ es st, (cb es st).2 = none) :
    ∃ s3 : SPIState Nat (List (Nat × Nat)),
      (observe natMapOps envAll 1 A (initSPI natMapOps) >>=
        observe natMapOps envAll 1 B >>= observe natMapOps envAll 1 C) =
        .ok s3 ∧
      (broadcastActive layout cb (gatherActive natMapOps layout s3)).calls =
        [[⟨A, layout A⟩, ⟨B, layout B⟩, ⟨C, layout C⟩]] ∧
      (broadcastActive layout cb (gatherActive natMapOps layout s3)).err =
        none ∧
      (broadcastActive layout cb
        (gatherActive natMapOps layout s3)).state.activeObservations = [] := by
  have hchain : (observe natMapOps envAll 1 A (initSPI natMapOps) >>=
      observe natMapOps envAll 1 B >>= observe natMapOps envAll 1 C) =
      .ok (⟨3, [(0, ⟨A, none⟩), (1, ⟨B, none⟩), (2, ⟨C, none⟩)], [],
        [(A, 0), (B, 1), (C, 2)], true, 3⟩ : SPIState Nat (List (Nat × Nat))) := by
    simp [observe, validateMethodCall, envAll, initSPI, natMapOps,
      nativeMapOps, assocSet, hAB, hAC, hBC, Bind.bind, Except.bind]
  have hg : gatherActive natMapOps layout
      (⟨3, [(0, ⟨A, none⟩), (1, ⟨B, none⟩), (2, ⟨C, none⟩)], [],
        [(A, 0), (B, 1), (C, 2)], true, 3⟩ : SPIState Nat (List (Nat × Nat))) =
      ⟨3, [(0, ⟨A, none⟩), (1, ⟨B, none⟩), (2, ⟨C, none⟩)], [0, 1, 2],
        [(A, 0), (B, 1), (C, 2)], true, 3⟩ := rfl
  have hb := broadcastActive_ok layout cb
    (⟨3, [(0, ⟨A, none⟩), (1, ⟨B, none⟩), (2, ⟨C, none⟩)], [0, 1, 2],
      [(A, 0), (B, 1), (C, 2)], true, 3⟩ : SPIState Nat (List (Nat × Nat)))
    rfl hcb
  refine ⟨_, hchain, ?_, ?_, ?_⟩ <;> rw [hg, hb] <;> rfl

/-- Witness for c4_gather_broadcast_order at three concrete targets and
the constant layout, with the trivial callback. -/
theorem c4_witness :
    10 ≠ 11 ∧
    ∃ s3 : SPIState Nat (List (Nat × Nat)),
      (observe natMapOps envAll 1 10 (initSPI natMapOps) >>=
        observe natMapOps envAll 1 11 >>= observe natMapOps envAll 1 12) =
        .ok s3 ∧
      (broadcastActive constLayout idCb
          (gatherActive natMapOps constLayout s3)).calls =
        [[⟨10, constLayout 10⟩, ⟨11, constLayout 11⟩, ⟨12, constLayout 12⟩]] ∧
      (broadcastActive constLayout idCb
          (gatherActive natMapOps constLayout s3)).err = none ∧
      (broadcastActive constLayout idCb
        (gatherActive natMapOps constLayout s3)).state.activeObservations = [] :=
  ⟨by decide, c4_gather_broadcast_order 10 11 12 constLayout idCb
    (by decide) (by decide) (by decide) (fun _ _ => rfl)⟩

/-- Claim C5: the entries passed to an in-flight callback invocation are
fully built from activeObservations before the callback runs. First, the
invocation sequence of broadcastActive (which invocations happen and
with which entries arrays) is identical for any two callbacks, however
they mutate the instance state, so no mutation performed by the callback
can change the entries it was passed. Second, concretely: a callback
that performs a nested observe of a new target D during the broadcast of
A still receives exactly the snapshot entries for A; the nested
observation of D is stored in the map, is not part of the delivered
entries, and becomes active only in the next gatherActive pass. -/
theorem c5_snapshot_entries :
    (∀ (layout : Nat → Box) (s : SPIState Nat (List (Nat × Nat)))
        (cb cb2 : Callback Nat (List (Nat × Nat))),
      (broadcastActive layout cb s).calls =
        (broadcastActive layout cb2 s).calls) ∧
    (∀ (A D : Nat) (layout : Nat → Box), A ≠ D →
      ∃ s1 : SPIState Nat (List (Nat × Nat)),
        observe natMapOps envAll 1 A (initSPI natMapOps) = .ok s1 ∧
        (broadcastActive layout (nestedObserveCb D)
            (gatherActive natMapOps layout s1)).calls = [[⟨A, layout A⟩]] ∧
        natMapOps.toPairsK (broadcastActive layout (nestedObserveCb D)
            (gatherActive natMapOps layout s1)).state.observations =
          [(A, 0), (D, 1)] ∧
        (broadcastActive layout (nestedObserveCb D)
            (gatherActive natMapOps layout s1)).state.activeObservations = [] ∧
        (gatherActive natMapOps layout
            (broadcastActive layout (nestedObserveCb D)
              (gatherActive natMapOps layout s1)).state).activeObservations =
          [1]) := by
  constructor
  · intro layout s cb cb2
    rw [broadcastActive_calls, broadcastActive_calls]
  · intro A D layout hAD
    have hg : gatherActive natMapOps layout
        (⟨1, [(0, ⟨A, none⟩)], [], [(A, 0)], true, 1⟩ :
          SPIState Nat (List (Nat × Nat))) =
        ⟨1, [(0, ⟨A, none⟩)], [0], [(A, 0)], true, 1⟩ := rfl
    have hW : observe natMapOps envAll 1 D
        (bWriteback layout (⟨1, [(0, ⟨A, none⟩)], [0], [(A, 0)], true, 1⟩ :
          SPIState Nat (List (Nat × Nat)))) =
        .ok ⟨2, [(0, ⟨A, some (layout A)⟩), (1, ⟨D, none⟩)], [0],
          [(A, 0), (D, 1)], true, 2⟩ := by
      simp [observe, validateMethodCall, envAll, natMapOps, nativeMapOps,
        assocSet, bWriteback, Observation.broadcastRect, hAD]
    have hmain : broadcastActive layout (nestedObserveCb D)
        (⟨1, [(0, ⟨A, none⟩)], [0], [(A, 0)], true, 1⟩ :
          SPIState Nat (List (Nat × Nat))) =
        ⟨⟨2, [(0, ⟨A, some (layout A)⟩), (1, ⟨D, none⟩)], [],
          [(A, 0), (D, 1)], true, 2⟩, none, [[⟨A, layout A⟩]]⟩ := by
      simp only [broadcastActive, nestedObserveCb, hW]
      rfl
    refine ⟨⟨1, [(0, ⟨A, none⟩)], [], [(A, 0)], true, 1⟩, rfl, ?_, ?_, ?_, ?_⟩ <;>
        rw [hg, hmain] <;>
      simp [gatherActive, heapGet, Observation.isActive, natMapOps,
        nativeMapOps, List.lookup]

/-- Witness for c5_snapshot_entries, discharging the distinctness
hypothesis of the nested-observe conjunct at concrete targets. -/
theorem c5_witness :
    (broadcastActive constLayout idCb sOneActive).calls =
      (broadcastActive constLayout throwCb sOneActive).calls ∧
    (20 ≠ 21 ∧
      ∃ s1 : SPIState Nat (List (Nat × Nat)),
        observe natMapOps envAll 1 20 (initSPI natMapOps) = .ok s1 ∧
        (broadcastActive constLayout (nestedObserveCb 21)
            (gatherActive natMapOps constLayout s1)).calls =
          [[⟨20, constLayout 20⟩]] ∧
        natMapOps.toPairsK (broadcastActive constLayout (nestedObserveCb 21)
            (gatherActive natMapOps constLayout s1)).state.observations =
          [(20, 0), (21, 1)] ∧
        (broadcastActive constLayout (nestedObserveCb 21)
            (gatherActive natMapOps constLayout s1)).state.activeObservations =
          [] ∧
        (gatherActive natMapOps constLayout
            (broadcastActive constLayout (nestedObserveCb 21)
              (gatherActive natMapOps constLayout s1)).state).activeObservations =
          [1]) :=
  ⟨c5_snapshot_entries.1 constLayout sOneActive idCb throwCb,
    by decide,
    c5_snapshot_entries.2 20 21 constLayout (by decide)⟩

end RO
